import Mathlib

/-!
Verification of the Jarvis AI routing-and-fallback core.

Shallow embedding of:
- `src/jarvis/ai/ai_task_router.py` (structured, resource-aware router),
- `src/jarvis/ai/ai_task_router_temp.py` (keyword/free-text router),
- `src/jarvis/ai/fallback_ai_manager.py` (fallback executor, metrics, health).

Wall-clock time is not modelled: every `duration` and `last_used` value the
Python code obtains from `time.time()` is embedded as `0`.  Network calls are
modelled by outcome oracles passed in as parameters.
-/

set_option maxHeartbeats 1000000

namespace Jarvis

/-- `TaskType` enumeration from `ai_task_router.py` lines 19-28. -/
inductive TaskType where
  | CODE_ANALYSIS
  | CODE_GENERATION
  | TEXT_GENERATION
  | IMAGE_ANALYSIS
  | GENERAL_QA
  | DOCUMENTATION
  | DEBUGGING
  | OPTIMIZATION
deriving DecidableEq, Repr

/-- `AIModel` dataclass from `ai_task_router.py` lines 30-47. -/
structure AIModel where
  name : String
  task_types : List TaskType
  priority : Nat
  memory_requirement : Nat
  is_available : Bool := true
deriving DecidableEq, Repr

/-- Routing errors raised by the structured router (`raise ValueError` in
`route_task` when no suitable model exists, and in `get_model_info` for an
unknown model). -/
inductive RouterError where
  | noSuitableModel (t : TaskType)
  | unknownModel (name : String)
deriving DecidableEq, Repr

/-- The filter on line 178-181 of `ai_task_router.py`: models whose task-type
list contains the requested type and whose availability flag is true. -/
def suitableModels (models : List AIModel) (task_type : TaskType) : List AIModel :=
  models.filter fun m => m.task_types.contains task_type && m.is_available

/-- The sort key comparison used on line 187 of `ai_task_router.py`:
Python `sort(key=lambda m: (m.priority, m.memory_requirement))`, i.e.
lexicographic order on the pair (priority, memory requirement). -/
def modelKeyLe (a b : AIModel) : Bool :=
  a.priority < b.priority ||
    (a.priority == b.priority && a.memory_requirement ≤ b.memory_requirement)

/-- Python `min(suitable_models, key=lambda m: m.memory_requirement)`
(line 198): the accumulator is replaced only on strict improvement, so the
first element of minimal memory requirement wins. -/
def pyMinByMem : AIModel → List AIModel → AIModel
  | best, [] => best
  | best, m :: ms =>
      pyMinByMem (if m.memory_requirement < best.memory_requirement then m else best) ms

/-- `AITaskRouter.route_task` from `ai_task_router.py` lines 163-203, with the
probed available memory passed as a parameter (the code obtains it from
`get_available_memory`).  Filters suitable models, raises when none, sorts by
(priority, memory requirement), returns the first candidate fitting in
available memory, and otherwise the suitable candidate of smallest memory
requirement. -/
def route_task (models : List AIModel) (task_type : TaskType)
    (available_memory : Nat) : Except RouterError (String × AIModel) :=
  let suitable := suitableModels models task_type
  if suitable.isEmpty then
    .error (.noSuitableModel task_type)
  else
    let sorted := suitable.mergeSort modelKeyLe
    match sorted.find? (fun m => m.memory_requirement ≤ available_memory) with
    | some m => .ok (m.name, m)
    | none =>
        match sorted with
        | [] => .error (.noSuitableModel task_type)
        | h :: t =>
            let smallest := pyMinByMem h t
            .ok (smallest.name, smallest)

/-! ### Helper lemmas about the router -/

theorem modelKeyLe_trans (a b c : AIModel) :
    modelKeyLe a b → modelKeyLe b c → modelKeyLe a c := by
  simp only [modelKeyLe, Bool.or_eq_true, Bool.and_eq_true, decide_eq_true_eq, beq_iff_eq]
  omega

theorem modelKeyLe_total (a b : AIModel) :
    modelKeyLe a b || modelKeyLe b a := by
  simp only [modelKeyLe, Bool.or_eq_true, Bool.and_eq_true, decide_eq_true_eq, beq_iff_eq]
  omega

theorem modelKeyLe_refl (a : AIModel) : modelKeyLe a a := by
  simp [modelKeyLe]

/-- In a list sorted (pairwise) by `le`, the first element satisfying `p`
(as found by `find?`) is `le`-below every element of the list satisfying `p`,
provided `le` is reflexive. -/
theorem find_min_of_pairwise {α : Type} (le : α → α → Bool) (p : α → Bool)
    (hrefl : ∀ a, le a a) :
    ∀ (l : List α) (x : α), l.Pairwise (fun a b => le a b) → l.find? p = some x →
      p x ∧ x ∈ l ∧ ∀ y ∈ l, p y → le x y := by
  intro l
  induction l with
  | nil => intro x _ h; simp [List.find?] at h
  | cons a tl ih =>
      intro x hpw hfind
      by_cases hpa : p a = true
      · rw [List.find?_cons_of_pos _ hpa] at hfind
        simp only [Option.some.injEq] at hfind
        subst hfind
        refine ⟨hpa, List.mem_cons_self _ _, ?_⟩
        intro y hy _
        rcases List.mem_cons.mp hy with rfl | hy
        · exact hrefl _
        · exact (List.pairwise_cons.mp hpw).1 y hy
      · rw [List.find?_cons_of_neg _ hpa] at hfind
        have htl := (List.pairwise_cons.mp hpw).2
        obtain ⟨hx, hmem, hmin⟩ := ih x htl hfind
        refine ⟨hx, List.mem_cons_of_mem _ hmem, ?_⟩
        intro y hy hpy
        rcases List.mem_cons.mp hy with rfl | hy
        · exact absurd hpy hpa
        · exact hmin y hy hpy

/-- `pyMinByMem` returns an element of `best :: l`. -/
theorem pyMinByMem_mem : ∀ (l : List AIModel) (best : AIModel),
    pyMinByMem best l = best ∨ pyMinByMem best l ∈ l := by
  intro l
  induction l with
  | nil => intro best; left; rfl
  | cons m ms ih =>
      intro best
      simp only [pyMinByMem]
      by_cases h : m.memory_requirement < best.memory_requirement
      · simp only [h, if_pos]
        rcases ih m with h1 | h1
        · right; rw [h1]; exact List.mem_cons_self _ _
        · right; exact List.mem_cons_of_mem _ h1
      · simp only [h, if_neg, if_false]
        rcases ih best with h1 | h1
        · left; exact h1
        · right; exact List.mem_cons_of_mem _ h1

/-- `pyMinByMem` returns an element whose memory requirement is minimal among
`best :: l`. -/
theorem pyMinByMem_min : ∀ (l : List AIModel) (best : AIModel),
    (pyMinByMem best l).memory_requirement ≤ best.memory_requirement ∧
      ∀ y ∈ l, (pyMinByMem best l).memory_requirement ≤ y.memory_requirement := by
  intro l
  induction l with
  | nil => intro best; exact ⟨le_refl _, by simp⟩
  | cons m ms ih =>
      intro best
      simp only [pyMinByMem]
      by_cases h : m.memory_requirement < best.memory_requirement
      · simp only [h, if_pos]
        obtain ⟨h1, h2⟩ := ih m
        refine ⟨le_trans h1 (le_of_lt h), ?_⟩
        intro y hy
        rcases List.mem_cons.mp hy with rfl | hy
        · exact h1
        · exact h2 y hy
      · simp only [h, if_neg, if_false]
        obtain ⟨h1, h2⟩ := ih best
        refine ⟨h1, ?_⟩
        intro y hy
        rcases List.mem_cons.mp hy with rfl | hy
        · exact le_trans h1 (le_of_not_lt h)
        · exact h2 y hy

/-! ### Claim theorems for the structured router -/

/-- C1: whenever the suitable set (models supporting the task type and
available) is nonempty, `route_task` returns `.ok` (never an error due to
memory pressure), the returned model is suitable and its name is the first
component; if some suitable model fits in available memory then the returned
model fits and its (priority, memory requirement) key is minimal among all
fitting suitable models; if none fits, the returned model has the globally
smallest memory requirement among the suitable models. -/
theorem route_task_correct (models : List AIModel) (task_type : TaskType)
    (available_memory : Nat)
    (hne : suitableModels models task_type ≠ []) :
    ∃ m, route_task models task_type available_memory = .ok (m.name, m) ∧
      m ∈ suitableModels models task_type ∧
      ((∃ m' ∈ suitableModels models task_type,
          m'.memory_requirement ≤ available_memory) →
        m.memory_requirement ≤ available_memory ∧
        ∀ m' ∈ suitableModels models task_type,
          m'.memory_requirement ≤ available_memory → modelKeyLe m m') ∧
      ((∀ m' ∈ suitableModels models task_type,
          ¬ m'.memory_requirement ≤ available_memory) →
        ∀ m' ∈ suitableModels models task_type,
          m.memory_requirement ≤ m'.memory_requirement) := by
  classical
  obtain ⟨a, l, hsl⟩ := List.exists_cons_of_ne_nil hne
  have hempty : (suitableModels models task_type).isEmpty = false := by rw [hsl]; rfl
  have hperm : List.Perm ((suitableModels models task_type).mergeSort modelKeyLe)
      (suitableModels models task_type) := List.mergeSort_perm _ _
  have hsorted : ((suitableModels models task_type).mergeSort modelKeyLe).Pairwise
      (fun a b => modelKeyLe a b) :=
    List.sorted_mergeSort modelKeyLe_trans modelKeyLe_total _
  unfold route_task
  simp only [hempty, Bool.false_eq_true, if_false]
  cases hfind : ((suitableModels models task_type).mergeSort modelKeyLe).find?
      (fun m => m.memory_requirement ≤ available_memory) with
  | none =>
    -- no sorted candidate fits: smallest-memory fallback
    cases hms : (suitableModels models task_type).mergeSort modelKeyLe with
    | nil =>
      exfalso
      have hlen := hperm.length_eq
      rw [hms, hsl] at hlen
      simp at hlen
    | cons h t =>
      refine ⟨pyMinByMem h t, rfl, ?_, ?_, ?_⟩
      · have hmem : pyMinByMem h t ∈ h :: t := by
          rcases pyMinByMem_mem t h with h1 | h1
          · rw [h1]; exact List.mem_cons_self _ _
          · exact List.mem_cons_of_mem _ h1
        have : pyMinByMem h t ∈ (suitableModels models task_type).mergeSort modelKeyLe := by
          rw [hms]; exact hmem
        exact hperm.mem_iff.mp this
      · -- with find? = none, no suitable model fits, so the hypothesis is absurd
        intro ⟨m', hm', hfit⟩
        exfalso
        have hm'sorted : m' ∈ (suitableModels models task_type).mergeSort modelKeyLe :=
          hperm.mem_iff.mpr hm'
        have := List.find?_eq_none.mp hfind m' hm'sorted
        simp only [decide_eq_true_eq] at this
        exact this hfit
      · intro _ m' hm'
        have hm'sorted : m' ∈ (suitableModels models task_type).mergeSort modelKeyLe :=
          hperm.mem_iff.mpr hm'
        rw [hms] at hm'sorted
        obtain ⟨h1, h2⟩ := pyMinByMem_min t h
        rcases List.mem_cons.mp hm'sorted with rfl | hmem
        · exact h1
        · exact h2 m' hmem
  | some m =>
    -- first fitting candidate in sorted order
    obtain ⟨hpm, hmemS, hmin⟩ :=
      find_min_of_pairwise modelKeyLe _ modelKeyLe_refl _ m hsorted hfind
    simp only [decide_eq_true_eq] at hpm
    refine ⟨m, rfl, hperm.mem_iff.mp hmemS, ?_, ?_⟩
    · intro _
      refine ⟨hpm, ?_⟩
      intro m' hm' hfit
      have : m' ∈ (suitableModels models task_type).mergeSort modelKeyLe :=
        hperm.mem_iff.mpr hm'
      exact hmin m' this (by simpa using hfit)
    · intro hnofit
      exfalso
      exact hnofit m (hperm.mem_iff.mp hmemS) hpm

/-- Witness for C1 at a concrete input: two suitable models where only the
smaller fits. -/
theorem route_task_correct_witness :
    suitableModels
        [⟨"big", [TaskType.GENERAL_QA], 1, 5000, true⟩,
         ⟨"small", [TaskType.GENERAL_QA], 2, 1000, true⟩]
        TaskType.GENERAL_QA ≠ [] ∧
    ∃ m, route_task
        [⟨"big", [TaskType.GENERAL_QA], 1, 5000, true⟩,
         ⟨"small", [TaskType.GENERAL_QA], 2, 1000, true⟩]
        TaskType.GENERAL_QA 2000 = .ok (m.name, m) ∧
      m ∈ suitableModels
        [⟨"big", [TaskType.GENERAL_QA], 1, 5000, true⟩,
         ⟨"small", [TaskType.GENERAL_QA], 2, 1000, true⟩] TaskType.GENERAL_QA ∧
      ((∃ m' ∈ suitableModels
          [⟨"big", [TaskType.GENERAL_QA], 1, 5000, true⟩,
           ⟨"small", [TaskType.GENERAL_QA], 2, 1000, true⟩] TaskType.GENERAL_QA,
          m'.memory_requirement ≤ 2000) →
        m.memory_requirement ≤ 2000 ∧
        ∀ m' ∈ suitableModels
          [⟨"big", [TaskType.GENERAL_QA], 1, 5000, true⟩,
           ⟨"small", [TaskType.GENERAL_QA], 2, 1000, true⟩] TaskType.GENERAL_QA,
          m'.memory_requirement ≤ 2000 → modelKeyLe m m') ∧
      ((∀ m' ∈ suitableModels
          [⟨"big", [TaskType.GENERAL_QA], 1, 5000, true⟩,
           ⟨"small", [TaskType.GENERAL_QA], 2, 1000, true⟩] TaskType.GENERAL_QA,
          ¬ m'.memory_requirement ≤ 2000) →
        ∀ m' ∈ suitableModels
          [⟨"big", [TaskType.GENERAL_QA], 1, 5000, true⟩,
           ⟨"small", [TaskType.GENERAL_QA], 2, 1000, true⟩] TaskType.GENERAL_QA,
          m.memory_requirement ≤ m'.memory_requirement) :=
  ⟨by decide,
   route_task_correct
     [⟨"big", [TaskType.GENERAL_QA], 1, 5000, true⟩,
      ⟨"small", [TaskType.GENERAL_QA], 2, 1000, true⟩]
     TaskType.GENERAL_QA 2000 (by decide)⟩

/-- C7: when no model both supports the requested task type and is available,
`route_task` raises the no-suitable-model error (`raise ValueError(...)` on
line 184) and returns no model. -/
theorem route_task_no_suitable (models : List AIModel) (task_type : TaskType)
    (available_memory : Nat)
    (hempty : suitableModels models task_type = []) :
    route_task models task_type available_memory =
      .error (.noSuitableModel task_type) := by
  unfold route_task
  rw [hempty]
  rfl

/-- Witness for C7: a model list with no model supporting IMAGE_ANALYSIS. -/
theorem route_task_no_suitable_witness :
    suitableModels [⟨"m", [TaskType.GENERAL_QA], 1, 100, true⟩]
        TaskType.IMAGE_ANALYSIS = [] ∧
    route_task [⟨"m", [TaskType.GENERAL_QA], 1, 100, true⟩]
        TaskType.IMAGE_ANALYSIS 6144 =
      .error (.noSuitableModel TaskType.IMAGE_ANALYSIS) :=
  ⟨by decide,
   route_task_no_suitable [⟨"m", [TaskType.GENERAL_QA], 1, 100, true⟩]
     TaskType.IMAGE_ANALYSIS 6144 (by decide)⟩

/-! ### Metrics store and health (`fallback_ai_manager.py` lines 341-372, 489-511) -/

/-- Per-model metrics entry created and mutated by `update_model_metrics`
(`fallback_ai_manager.py` lines 350-364).  Durations and timestamps are
rationals; wall-clock `time.time()` values are embedded as `0`. -/
structure ModelMetrics where
  total_attempts : Nat
  successful_attempts : Nat
  total_duration : ℚ
  last_used : ℚ
deriving DecidableEq, Repr

def emptyMetrics : ModelMetrics := ⟨0, 0, 0, 0⟩

/-- Python dict assignment `d[k] = v`: update in place when the key is
present, append otherwise. -/
def dictSet : List (String × ModelMetrics) → String → ModelMetrics →
    List (String × ModelMetrics)
  | [], k, v => [(k, v)]
  | (k', v') :: rest, k, v =>
      if k' = k then (k, v) :: rest else (k', v') :: dictSet rest k v

/-- `FallbackAIManager.update_model_metrics` (lines 341-364): insert a fresh
zero entry when the model is untracked, then increment `total_attempts`,
accumulate duration, refresh `last_used`, and increment `successful_attempts`
on success. -/
def update_model_metrics (d : List (String × ModelMetrics)) (model_name : String)
    (success : Bool) (duration : ℚ) : List (String × ModelMetrics) :=
  let m0 := (d.lookup model_name).getD emptyMetrics
  let m1 : ModelMetrics :=
    { total_attempts := m0.total_attempts + 1
      successful_attempts := m0.successful_attempts + (if success then 1 else 0)
      total_duration := m0.total_duration + duration
      last_used := 0 }
  dictSet d model_name m1

/-- `FallbackAIManager.get_model_success_rate` (lines 366-372): `1.0` when the
model is untracked or has zero attempts, else successful/total. -/
def get_model_success_rate (d : List (String × ModelMetrics))
    (model_name : String) : ℚ :=
  match d.lookup model_name with
  | none => 1
  | some m =>
      if m.total_attempts = 0 then 1
      else (m.successful_attempts : ℚ) / (m.total_attempts : ℚ)

/-- The health classification strings produced by `get_system_health`. -/
inductive Health where
  | healthy
  | degraded
  | unhealthy
deriving DecidableEq, Repr

/-- The per-model status expression on line 505:
`healthy if success_rate > 0.8 else degraded if success_rate > 0.5 else unhealthy`. -/
def modelStatus (success_rate : ℚ) : Health :=
  if success_rate > 8/10 then .healthy
  else if success_rate > 1/2 then .degraded
  else .unhealthy

/-- The per-model record built on lines 499-506 of `get_system_health`. -/
structure ModelHealth where
  success_rate : ℚ
  total_attempts : Nat
  successful_attempts : Nat
  average_duration : ℚ
  last_used : ℚ
  status : Health
deriving DecidableEq, Repr

def mkModelHealth (d : List (String × ModelMetrics)) (name : String)
    (m : ModelMetrics) : ModelHealth :=
  let sr := get_model_success_rate d name
  { success_rate := sr
    total_attempts := m.total_attempts
    successful_attempts := m.successful_attempts
    average_duration :=
      if m.total_attempts > 0 then m.total_duration / (m.total_attempts : ℚ) else 0
    last_used := m.last_used
    status := modelStatus sr }

/-- The snapshot returned by `get_system_health` (timestamp not modelled). -/
structure SystemHealth where
  models : List (String × ModelHealth)
  overall_health : Health
deriving DecidableEq, Repr

/-- `FallbackAIManager.get_system_health` (lines 489-511): builds the
per-model records, starting from `overall_health = healthy` and setting it to
`degraded` whenever a model's status is not healthy. -/
def get_system_health (d : List (String × ModelMetrics)) : SystemHealth :=
  let entries := d.map fun p => (p.1, mkModelHealth d p.1 p.2)
  { models := entries
    overall_health := entries.foldl
      (fun acc p => if p.2.status ≠ Health.healthy then Health.degraded else acc)
      Health.healthy }

/-! ### Claim theorems for metrics and health -/

/-- C8: `get_model_success_rate` returns exactly 1 for a model with zero
recorded attempts (untracked, or tracked with `total_attempts = 0`), and
exactly 1/3 for a model whose metrics record 3 total attempts with 1
success. -/
theorem success_rate_values (d : List (String × ModelMetrics)) (name : String) :
    (d.lookup name = none → get_model_success_rate d name = 1) ∧
    (∀ m, d.lookup name = some m → m.total_attempts = 0 →
      get_model_success_rate d name = 1) ∧
    (∀ m, d.lookup name = some m → m.total_attempts = 3 →
      m.successful_attempts = 1 → get_model_success_rate d name = 1/3) := by
  refine ⟨?_, ?_, ?_⟩
  · intro h
    simp [get_model_success_rate, h]
  · intro m hm h0
    simp [get_model_success_rate, hm, h0]
  · intro m hm h3 h1
    simp only [get_model_success_rate, hm, h3, h1]
    norm_num

/-- Witness for C8: an untracked model reads 1, and after the concrete
sequence one success then two failures the rate is 1/3. -/
theorem success_rate_values_witness :
    get_model_success_rate [] "m" = 1 ∧
    get_model_success_rate
      (update_model_metrics
        (update_model_metrics
          (update_model_metrics [] "m" true 0) "m" false 0) "m" false 0) "m" = 1/3 := by
  constructor
  · exact (success_rate_values [] "m").1 rfl
  · exact (success_rate_values
      (update_model_metrics
        (update_model_metrics
          (update_model_metrics [] "m" true 0) "m" false 0) "m" false 0) "m").2.2
      ⟨3, 1, 0, 0⟩
      (by simp [update_model_metrics, dictSet, emptyMetrics, List.lookup]) rfl rfl

/-- Folding the overall-health update over the per-model entries yields
`degraded` exactly when some entry is non-healthy. -/
theorem foldl_overall_health (l : List (String × ModelHealth)) (acc : Health) :
    l.foldl (fun acc p => if p.2.status ≠ Health.healthy then Health.degraded else acc)
        acc =
      if l.any (fun p => p.2.status != Health.healthy) then Health.degraded else acc := by
  induction l generalizing acc with
  | nil => simp
  | cons x xs ih =>
      rw [List.foldl_cons, ih, List.any_cons]
      by_cases h : x.2.status = Health.healthy
      · rw [if_neg (by simp [h] : ¬ x.2.status ≠ Health.healthy)]
        rw [show (x.2.status != Health.healthy) = false by simp [h]]
        rw [Bool.false_or]
      · rw [if_pos h]
        rw [show (x.2.status != Health.healthy) = true by simp [bne_iff_ne, h]]
        rw [Bool.true_or]
        simp

/-- C9: `get_system_health` gives each tracked model the status healthy iff
its success rate exceeds 0.8, degraded iff it is at most 0.8 but exceeds 0.5,
and unhealthy otherwise; `overall_health` is degraded iff some tracked model
is non-healthy and healthy otherwise, and is never the aggregate value
unhealthy. -/
theorem system_health_classification (d : List (String × ModelMetrics)) :
    (∀ p ∈ (get_system_health d).models,
      (p.2.status = Health.healthy ↔ get_model_success_rate d p.1 > 8/10) ∧
      (p.2.status = Health.degraded ↔
        (get_model_success_rate d p.1 ≤ 8/10 ∧ get_model_success_rate d p.1 > 1/2)) ∧
      (p.2.status = Health.unhealthy ↔
        (get_model_success_rate d p.1 ≤ 8/10 ∧ get_model_success_rate d p.1 ≤ 1/2))) ∧
    ((get_system_health d).overall_health = Health.degraded ↔
      ∃ p ∈ (get_system_health d).models, p.2.status ≠ Health.healthy) ∧
    ((get_system_health d).overall_health = Health.healthy ↔
      ∀ p ∈ (get_system_health d).models, p.2.status = Health.healthy) ∧
    (get_system_health d).overall_health ≠ Health.unhealthy := by
  have hover : (get_system_health d).overall_health =
      if (get_system_health d).models.any (fun p => p.2.status != Health.healthy)
      then Health.degraded else Health.healthy := by
    simp only [get_system_health]
    exact foldl_overall_health _ _
  refine ⟨?_, ?_, ?_, ?_⟩
  · intro p hp
    simp only [get_system_health, List.mem_map] at hp
    obtain ⟨q, _, hq⟩ := hp
    have hst : p.2.status = modelStatus (get_model_success_rate d p.1) := by
      rw [← hq]
      rfl
    rw [hst]
    unfold modelStatus
    by_cases h8 : get_model_success_rate d p.1 > 8/10
    · rw [if_pos h8]
      refine ⟨⟨fun _ => h8, fun _ => rfl⟩, ⟨?_, ?_⟩, ⟨?_, ?_⟩⟩
      · intro h; exact nomatch h
      · intro h; exact absurd h8 (not_lt_of_le h.1)
      · intro h; exact nomatch h
      · intro h; exact absurd h8 (not_lt_of_le h.1)
    · rw [if_neg h8]
      by_cases h5 : get_model_success_rate d p.1 > 1/2
      · rw [if_pos h5]
        refine ⟨⟨?_, ?_⟩, ⟨fun _ => ⟨le_of_not_lt h8, h5⟩, fun _ => rfl⟩, ⟨?_, ?_⟩⟩
        · intro h; exact nomatch h
        · intro h; exact absurd h h8
        · intro h; exact nomatch h
        · intro h; exact absurd h5 (not_lt_of_le h.2)
      · rw [if_neg h5]
        refine ⟨⟨?_, ?_⟩, ⟨?_, ?_⟩,
          ⟨fun _ => ⟨le_of_not_lt h8, le_of_not_lt h5⟩, fun _ => rfl⟩⟩
        · intro h; exact nomatch h
        · intro h; exact absurd h h8
        · intro h; exact nomatch h
        · intro h; exact absurd h.2 h5
  · rw [hover]
    by_cases h : (get_system_health d).models.any (fun p => p.2.status != Health.healthy)
    · rw [if_pos h]
      constructor
      · intro _
        obtain ⟨p, hp, hne⟩ := List.any_eq_true.mp h
        exact ⟨p, hp, by simpa using hne⟩
      · intro _; rfl
    · rw [if_neg h]
      constructor
      · intro hcontra; exact nomatch hcontra
      · intro ⟨p, hp, hne⟩
        exact absurd (List.any_eq_true.mpr ⟨p, hp, by simpa using hne⟩) h
  · rw [hover]
    by_cases h : (get_system_health d).models.any (fun p => p.2.status != Health.healthy)
    · rw [if_pos h]
      constructor
      · intro hcontra; exact nomatch hcontra
      · intro hall
        obtain ⟨p, hp, hne⟩ := List.any_eq_true.mp h
        exact absurd (hall p hp) (by simpa using hne)
    · rw [if_neg h]
      constructor
      · intro _ p hp
        by_contra hne
        exact absurd (List.any_eq_true.mpr ⟨p, hp, by simpa using hne⟩) h
      · intro _; rfl
  · rw [hover]
    by_cases h : (get_system_health d).models.any (fun p => p.2.status != Health.healthy)
    · rw [if_pos h]
      intro hcontra; exact nomatch hcontra
    · rw [if_neg h]
      intro hcontra; exact nomatch hcontra

/-- Witness for C9: the per-model classification instantiated at a tracked
model with 4 successful attempts out of 4. -/
theorem system_health_classification_witness :
    ("m", mkModelHealth [("m", ⟨4, 4, 0, 0⟩)] "m" ⟨4, 4, 0, 0⟩) ∈
      (get_system_health [("m", ⟨4, 4, 0, 0⟩)]).models ∧
    ((("m", mkModelHealth [("m", ⟨4, 4, 0, 0⟩)] "m" ⟨4, 4, 0, 0⟩) :
        String × ModelHealth).2.status = Health.healthy ↔
      get_model_success_rate [("m", (⟨4, 4, 0, 0⟩ : ModelMetrics))] "m" > 8/10) :=
  ⟨List.mem_cons_self _ _,
   ((system_health_classification [("m", ⟨4, 4, 0, 0⟩)]).1 _
     (List.mem_cons_self _ _)).1⟩

/-! ### Fallback executor (`fallback_ai_manager.py` lines 374-487) -/

/-- Outcome of a single invocation of the task function inside
`execute_with_fallback`: a response, or a failure (either a provider-raised
exception or an `asyncio.TimeoutError`, folded to its error-message
string — both are handled identically apart from the message). -/
inductive AttemptOutcome where
  | success (response : String)
  | failure (error : String)
deriving DecidableEq, Repr

/-- `ModelAttempt` dataclass (`fallback_ai_manager.py` lines 23-41), with
`response` and `error` as optional strings and `duration` frozen at 0. -/
structure ModelAttempt where
  model_name : String
  success : Bool := false
  response : Option String := none
  error : Option String := none
  duration : ℚ := 0
  retry_count : Nat := 0
deriving DecidableEq, Repr

/-- A line of the performance log written by `_log_performance_event`:
either a `model_attempt` event (lines 430-439 and 456-466) or a
`fallback_chain_exhausted` event (lines 474-482).  The timestamp field is
not modelled. -/
inductive LogEvent where
  | model_attempt (model_name : String) (success : Bool) (error : Option String)
      (retry_count : Nat) (task_type : String) (fallback_chain : List String)
      (fallback_index : Nat)
  | fallback_chain_exhausted (task_type : String) (fallback_chain : List String)
      (attempts : List ModelAttempt) (last_model_used : Option String)
      (error : Option String)
deriving DecidableEq, Repr

def isModelAttemptEvent : LogEvent → Bool
  | .model_attempt .. => true
  | .fallback_chain_exhausted .. => false

/-- The manager state touched by `execute_with_fallback`: the
`model_metrics` dict and the appended performance log. -/
structure ExecState where
  metrics : List (String × ModelMetrics)
  log : List LogEvent
deriving DecidableEq, Repr

/-- `FallbackAIManager.get_fallback_chain` (lines 374-385):
`self.fallback_chains.get(task_type, self.fallback_chains['text'])`.
Python evaluates the default argument eagerly, so a missing `text` chain
raises `KeyError` regardless of whether `task_type` is present. -/
def get_fallback_chain (fallback_chains : List (String × List String))
    (task_type : String) : Except String (List String) :=
  match fallback_chains.lookup "text" with
  | none => .error "KeyError: text"
  | some dflt => .ok ((fallback_chains.lookup task_type).getD dflt)

/-- The inner retry loop of `execute_with_fallback`
(`for retry in range(self.max_retries):`, lines 415-466), iterating over the
list of retry indices.  On success the code updates metrics, logs the
successful attempt, and returns — and Python still runs the `finally` block
of lines 451-466 on the way out, performing a second metrics update with
`attempt.success` (now true) and skipping the failure log.  On failure the
`finally` block performs the single metrics update (with `attempt.success`
still false) and logs the failed attempt.
Returns (successful result if any, the mutated attempt, last_error, state). -/
def runRetries (outcome : String → Nat → AttemptOutcome) (task_type : String)
    (fallback_chain : List String) (model_idx : Nat) (model_name : String) :
    List Nat → ModelAttempt → Option String → ExecState →
    Option (String × ModelAttempt) × ModelAttempt × Option String × ExecState
  | [], attempt, last_error, st => (none, attempt, last_error, st)
  | retry :: rest, attempt, last_error, st =>
      let attempt := { attempt with retry_count := retry }
      match outcome model_name retry with
      | .success resp =>
          let attempt := { attempt with success := true, response := some resp }
          let st := { st with
            metrics := update_model_metrics st.metrics model_name true 0,
            log := st.log ++ [LogEvent.model_attempt model_name true none
              attempt.retry_count task_type fallback_chain model_idx] }
          let st := { st with
            metrics := update_model_metrics st.metrics model_name attempt.success 0 }
          (some (resp, attempt), attempt, last_error, st)
      | .failure err =>
          let attempt := { attempt with error := some err }
          let st := { st with
            metrics := update_model_metrics st.metrics model_name attempt.success 0 }
          let st := { st with
            log := st.log ++ [LogEvent.model_attempt model_name false (some err)
              attempt.retry_count task_type fallback_chain model_idx] }
          runRetries outcome task_type fallback_chain model_idx model_name
            rest attempt (some err) st

/-- The outer chain loop of `execute_with_fallback` (lines 411-487):
per model, run the retry loop; on success return immediately; on exhaustion
append the attempt record to the fallback event chain and advance.  When the
whole chain is exhausted, log the `fallback_chain_exhausted` event carrying
every per-model attempt record and return the terminal failure attempt. -/
def runChain (outcome : String → Nat → AttemptOutcome) (max_retries : Nat)
    (task_type : String) (fallback_chain : List String) :
    List String → Nat → List ModelAttempt → Option String → Option String →
    ExecState → Option String × ModelAttempt × ExecState
  | [], _idx, event_chain, last_error, last_model_used, st =>
      let st := { st with log := st.log ++
        [LogEvent.fallback_chain_exhausted task_type fallback_chain event_chain
          last_model_used last_error] }
      (none, { model_name := "", success := false,
               error := some "All models in fallback chain failed" }, st)
  | model_name :: rest, model_idx, event_chain, last_error, _last_model_used, st =>
      match runRetries outcome task_type fallback_chain model_idx model_name
          (List.range max_retries) { model_name := model_name } last_error st with
      | (some (result, attempt), _, _, st') => (some result, attempt, st')
      | (none, attempt, last_error', st') =>
          runChain outcome max_retries task_type fallback_chain rest
            (model_idx + 1) (event_chain ++ [attempt]) last_error'
            (some model_name) st'

/-- `FallbackAIManager.execute_with_fallback` (lines 387-487): look up the
fallback chain for the task type and drive it.  The task function is
abstracted as an outcome oracle mapping (model name, retry index) to the
result of that call. -/
def execute_with_fallback (outcome : String → Nat → AttemptOutcome)
    (max_retries : Nat) (fallback_chains : List (String × List String))
    (task_type : String) (st : ExecState) :
    Except String (Option String × ModelAttempt × ExecState) :=
  match get_fallback_chain fallback_chains task_type with
  | .error e => .error e
  | .ok chain => .ok (runChain outcome max_retries task_type chain chain 0 [] none none st)

/-! ### Claim theorems for the fallback executor -/

/-- C2: with `max_retries = 2` and a chain of two models where the first
fails on both of its attempts and the second succeeds on its first attempt,
`execute_with_fallback` returns the second model's result together with a
successful attempt record, and the performance log gains exactly two failed
`model_attempt` events for the first model and exactly one successful
`model_attempt` event for the second — and nothing else.  The theorem holds
for every outcome oracle agreeing on those three calls, so no further retry
or model is ever consulted after the first success. -/
theorem execute_two_model_chain (outcome : String → Nat → AttemptOutcome)
    (fallback_chains : List (String × List String)) (task_type : String)
    (st : ExecState) (mA mB e0 e1 resp : String)
    (hchain : get_fallback_chain fallback_chains task_type = .ok [mA, mB])
    (hA0 : outcome mA 0 = .failure e0)
    (hA1 : outcome mA 1 = .failure e1)
    (hB0 : outcome mB 0 = .success resp) :
    ∃ stf,
      execute_with_fallback outcome 2 fallback_chains task_type st =
        .ok (some resp,
          { model_name := mB, success := true, response := some resp,
            error := none, duration := 0, retry_count := 0 }, stf) ∧
      stf.log = st.log ++
        [LogEvent.model_attempt mA false (some e0) 0 task_type [mA, mB] 0,
         LogEvent.model_attempt mA false (some e1) 1 task_type [mA, mB] 0,
         LogEvent.model_attempt mB true none 0 task_type [mA, mB] 1] := by
  unfold execute_with_fallback
  rw [hchain]
  have hr : List.range 2 = [0, 1] := rfl
  simp only [runChain, hr, runRetries, hA0, hA1, hB0, List.append_assoc]
  exact ⟨_, rfl, by simp⟩

/-- Witness for C2 at a concrete oracle and chain. -/
theorem execute_two_model_chain_witness :
    get_fallback_chain [("text", ["p1/modelA", "p2/modelB"])] "text" =
      .ok ["p1/modelA", "p2/modelB"] ∧
    (fun (name : String) (retry : Nat) =>
        if name = "p2/modelB" then AttemptOutcome.success "ok"
        else AttemptOutcome.failure ("boom" ++ toString retry)) "p1/modelA" 0 =
      .failure "boom0" ∧
    ∃ stf,
      execute_with_fallback
        (fun (name : String) (retry : Nat) =>
          if name = "p2/modelB" then AttemptOutcome.success "ok"
          else AttemptOutcome.failure ("boom" ++ toString retry)) 2
        [("text", ["p1/modelA", "p2/modelB"])] "text" ⟨[], []⟩ =
        .ok (some "ok",
          { model_name := "p2/modelB", success := true, response := some "ok",
            error := none, duration := 0, retry_count := 0 }, stf) ∧
      stf.log = ([] : List LogEvent) ++
        [LogEvent.model_attempt "p1/modelA" false (some "boom0") 0 "text"
           ["p1/modelA", "p2/modelB"] 0,
         LogEvent.model_attempt "p1/modelA" false (some "boom1") 1 "text"
           ["p1/modelA", "p2/modelB"] 0,
         LogEvent.model_attempt "p2/modelB" true none 0 "text"
           ["p1/modelA", "p2/modelB"] 1] :=
  ⟨rfl, rfl,
   execute_two_model_chain
     (fun (name : String) (retry : Nat) =>
        if name = "p2/modelB" then AttemptOutcome.success "ok"
        else AttemptOutcome.failure ("boom" ++ toString retry))
     [("text", ["p1/modelA", "p2/modelB"])] "text" ⟨[], []⟩
     "p1/modelA" "p2/modelB" "boom0" "boom1" "ok" rfl rfl rfl rfl⟩

/-- When every retry of a model fails, `runRetries` returns no result, the
attempt record keeps the model name and a false success flag, and the state
gains only `model_attempt` log events. -/
theorem runRetries_all_fail (outcome : String → Nat → AttemptOutcome)
    (task_type : String) (fallback_chain : List String) (model_idx : Nat)
    (model_name : String) :
    ∀ (retries : List Nat) (attempt : ModelAttempt) (last_error : Option String)
      (st : ExecState),
      attempt.success = false →
      (∀ r ∈ retries, ∃ e, outcome model_name r = .failure e) →
      ∃ attempt' last_error' st' evs,
        runRetries outcome task_type fallback_chain model_idx model_name
          retries attempt last_error st = (none, attempt', last_error', st') ∧
        attempt'.model_name = attempt.model_name ∧
        attempt'.success = false ∧
        st'.log = st.log ++ evs ∧
        ∀ ev ∈ evs, isModelAttemptEvent ev := by
  intro retries
  induction retries with
  | nil =>
      intro attempt le st hsucc _
      exact ⟨attempt, le, st, [], rfl, rfl, hsucc, by simp, by simp⟩
  | cons r rest ih =>
      intro attempt le st hsucc hfail
      obtain ⟨e, he⟩ := hfail r (List.mem_cons_self _ _)
      simp only [runRetries, he]
      obtain ⟨a', le', st', evs, heq, hname, hs, hlog, hevs⟩ :=
        ih { attempt with retry_count := r, error := some e } (some e)
          { metrics := update_model_metrics st.metrics model_name attempt.success 0,
            log := st.log ++ [LogEvent.model_attempt model_name false (some e) r
              task_type fallback_chain model_idx] }
          hsucc (fun r' hr' => hfail r' (List.mem_cons_of_mem _ hr'))
      refine ⟨a', le', st',
        LogEvent.model_attempt model_name false (some e) r task_type
          fallback_chain model_idx :: evs, heq, hname, hs, ?_, ?_⟩
      · rw [hlog]
        simp
      · intro ev hev
        rcases List.mem_cons.mp hev with rfl | hev
        · rfl
        · exact hevs ev hev

/-- When every model of the remaining chain fails on all its retries,
`runChain` returns the terminal failure attempt after logging the
`fallback_chain_exhausted` event that carries one attempt record per
remaining model, all other appended events being `model_attempt` events. -/
theorem runChain_all_fail (outcome : String → Nat → AttemptOutcome)
    (max_retries : Nat) (task_type : String) (full_chain : List String) :
    ∀ (rest : List String) (model_idx : Nat) (event_chain : List ModelAttempt)
      (last_error last_model_used : Option String) (st : ExecState),
      (∀ name ∈ rest, ∀ r ∈ List.range max_retries,
        ∃ e, outcome name r = .failure e) →
      ∃ metrics' evs attempts lmu le,
        runChain outcome max_retries task_type full_chain rest model_idx
          event_chain last_error last_model_used st =
          (none, { model_name := "", success := false,
                   error := some "All models in fallback chain failed" },
           ⟨metrics', st.log ++ evs ++
             [LogEvent.fallback_chain_exhausted task_type full_chain
               (event_chain ++ attempts) lmu le]⟩) ∧
        attempts.map (fun a => a.model_name) = rest ∧
        ∀ ev ∈ evs, isModelAttemptEvent ev := by
  intro rest
  induction rest with
  | nil =>
      intro model_idx event_chain le lmu st _
      refine ⟨st.metrics, [], [], lmu, le, ?_, rfl, by simp⟩
      simp [runChain]
  | cons name rest ih =>
      intro model_idx event_chain le lmu st hfail
      obtain ⟨a', le', st', evs, heq, hname, hs, hlog, hevs⟩ :=
        runRetries_all_fail outcome task_type full_chain model_idx name
          (List.range max_retries) { model_name := name } le st rfl
          (fun r hr => hfail name (List.mem_cons_self _ _) r hr)
      simp only [runChain, heq]
      obtain ⟨metrics', evs2, attempts, lmu2, le2, heq2, hmap, hevs2⟩ :=
        ih (model_idx + 1) (event_chain ++ [a']) le' (some name) st'
          (fun n hn r hr => hfail n (List.mem_cons_of_mem _ hn) r hr)
      refine ⟨metrics', evs ++ evs2, a' :: attempts, lmu2, le2, ?_, ?_, ?_⟩
      · rw [heq2, hlog]
        simp
      · simp only [List.map_cons, hmap, hname]
      · intro ev hev
        rcases List.mem_append.mp hev with hev | hev
        · exact hevs ev hev
        · exact hevs2 ev hev

/-- C3 (amended): when every model of the looked-up chain fails on all of its
retries, `execute_with_fallback` returns `(None, attempt)` with
`attempt.success = False` and `attempt.error` the message
"All models in fallback chain failed", and the log gains exactly one
`fallback_chain_exhausted` event, carrying one attempt record per model of
the chain, all other appended events being per-attempt `model_attempt`
events. -/
theorem execute_chain_exhausted (outcome : String → Nat → AttemptOutcome)
    (max_retries : Nat) (fallback_chains : List (String × List String))
    (task_type : String) (st : ExecState) (chain : List String)
    (hchain : get_fallback_chain fallback_chains task_type = .ok chain)
    (hfail : ∀ name ∈ chain, ∀ r, r < max_retries →
      ∃ e, outcome name r = .failure e) :
    ∃ metrics' evs attempts lmu le,
      execute_with_fallback outcome max_retries fallback_chains task_type st =
        .ok (none, { model_name := "", success := false,
                     error := some "All models in fallback chain failed" },
          ⟨metrics', st.log ++ evs ++
            [LogEvent.fallback_chain_exhausted task_type chain attempts lmu le]⟩) ∧
      attempts.map (fun a => a.model_name) = chain ∧
      ∀ ev ∈ evs, isModelAttemptEvent ev := by
  have hexec : execute_with_fallback outcome max_retries fallback_chains task_type st =
      .ok (runChain outcome max_retries task_type chain chain 0 [] none none st) := by
    unfold execute_with_fallback
    rw [hchain]
  obtain ⟨metrics', evs, attempts, lmu, le, heq, hmap, hevs⟩ :=
    runChain_all_fail outcome max_retries task_type chain chain 0 [] none none st
      (fun n hn r hr => hfail n hn r (List.mem_range.mp hr))
  rw [hexec, heq]
  refine ⟨metrics', evs, attempts, lmu, le, ?_, hmap, hevs⟩
  simp

/-- Witness for the amended C3 at a concrete two-model chain where every
call fails. -/
theorem execute_chain_exhausted_witness :
    get_fallback_chain [("text", ["m1", "m2"])] "text" = .ok ["m1", "m2"] ∧
    ∃ metrics' evs attempts lmu le,
      execute_with_fallback (fun _ _ => AttemptOutcome.failure "boom") 2
          [("text", ["m1", "m2"])] "text" ⟨[], []⟩ =
        .ok (none, { model_name := "", success := false,
                     error := some "All models in fallback chain failed" },
          ⟨metrics', ([] : List LogEvent) ++ evs ++
            [LogEvent.fallback_chain_exhausted "text" ["m1", "m2"] attempts lmu le]⟩) ∧
      attempts.map (fun a => a.model_name) = ["m1", "m2"] ∧
      ∀ ev ∈ evs, isModelAttemptEvent ev :=
  ⟨rfl,
   execute_chain_exhausted (fun _ _ => AttemptOutcome.failure "boom") 2
     [("text", ["m1", "m2"])] "text" ⟨[], []⟩ ["m1", "m2"] rfl
     (fun _ _ _ _ => ⟨"boom", rfl⟩)⟩

/-- Extracts the final attempt's error from an `execute_with_fallback`
result. -/
def resultAttemptError :
    Except String (Option String × ModelAttempt × ExecState) → Option String
  | .ok (_, att, _) => att.error
  | .error _ => none

/-- Counterexample to C3 as stated: on a concrete exhausted chain the final
attempt's error is the string "All models in fallback chain failed"
(`RuntimeError("All models in fallback chain failed")`, line 486), not the
claimed "all models failed". -/
theorem execute_error_string_counterexample :
    resultAttemptError
        (execute_with_fallback (fun _ _ => AttemptOutcome.failure "boom") 1
          [("text", ["m1"])] "text" ⟨[], []⟩) =
      some "All models in fallback chain failed" ∧
    (some "All models in fallback chain failed" : Option String) ≠
      some "all models failed" :=
  ⟨rfl, by decide⟩

/-! ### Double metric update on success (C10) -/

theorem dictSet_lookup_self :
    ∀ (d : List (String × ModelMetrics)) (k : String) (v : ModelMetrics),
      (dictSet d k v).lookup k = some v := by
  intro d k v
  induction d with
  | nil => simp [dictSet, List.lookup]
  | cons p rest ih =>
      obtain ⟨k', v'⟩ := p
      simp only [dictSet]
      by_cases h : k' = k
      · rw [if_pos h]
        simp [List.lookup]
      · rw [if_neg h]
        simp only [List.lookup]
        rw [show (k == k') = false by simp [Ne.symm h]]
        exact ih

/-- One `update_model_metrics` call increments `total_attempts` by one and
`successful_attempts` by one exactly on success. -/
theorem update_metrics_lookup (d : List (String × ModelMetrics)) (k : String)
    (success : Bool) (dur : ℚ) :
    ((update_model_metrics d k success dur).lookup k).getD emptyMetrics =
      { total_attempts := ((d.lookup k).getD emptyMetrics).total_attempts + 1
        successful_attempts := ((d.lookup k).getD emptyMetrics).successful_attempts +
          (if success then 1 else 0)
        total_duration := ((d.lookup k).getD emptyMetrics).total_duration + dur
        last_used := 0 } := by
  simp [update_model_metrics, dictSet_lookup_self]

/-- C10: when the first model of the chain succeeds on its first attempt,
`execute_with_fallback` runs `update_model_metrics` twice for that single
successful call — once in the success branch (line 428) and once more in the
`finally` block (line 453) that Python executes on the way out of the
`return` — so the model's `total_attempts` and `successful_attempts`
counters each grow by exactly 2, not 1. -/
theorem execute_success_double_counts (outcome : String → Nat → AttemptOutcome)
    (max_retries : Nat) (fallback_chains : List (String × List String))
    (task_type : String) (st : ExecState) (m resp : String) (rest : List String)
    (hchain : get_fallback_chain fallback_chains task_type = .ok (m :: rest))
    (hpos : 0 < max_retries)
    (hm0 : outcome m 0 = .success resp) :
    ∃ att stf,
      execute_with_fallback outcome max_retries fallback_chains task_type st =
        .ok (some resp, att, stf) ∧
      stf.metrics = update_model_metrics
        (update_model_metrics st.metrics m true 0) m true 0 ∧
      ((stf.metrics.lookup m).getD emptyMetrics).total_attempts =
        ((st.metrics.lookup m).getD emptyMetrics).total_attempts + 2 ∧
      ((stf.metrics.lookup m).getD emptyMetrics).successful_attempts =
        ((st.metrics.lookup m).getD emptyMetrics).successful_attempts + 2 := by
  have hexec : execute_with_fallback outcome max_retries fallback_chains task_type st =
      .ok (runChain outcome max_retries task_type (m :: rest) (m :: rest) 0 [] none none st) := by
    unfold execute_with_fallback
    rw [hchain]
  cases max_retries with
  | zero => exact absurd hpos (by simp)
  | succ k =>
      rw [hexec]
      simp only [runChain]
      rw [show List.range (k + 1) = 0 :: (List.range k).map Nat.succ from
        List.range_succ_eq_map k]
      simp only [runRetries, hm0]
      refine ⟨_, _, rfl, rfl, ?_, ?_⟩ <;>
        simp [update_metrics_lookup]

/-- Witness for C10 on a concrete chain, oracle and starting state. -/
theorem execute_success_double_counts_witness :
    get_fallback_chain [("text", ["m"])] "text" = .ok ["m"] ∧
    0 < 2 ∧
    ∃ att stf,
      execute_with_fallback (fun _ _ => AttemptOutcome.success "ok") 2
          [("text", ["m"])] "text" ⟨[], []⟩ =
        .ok (some "ok", att, stf) ∧
      stf.metrics = update_model_metrics
        (update_model_metrics ([] : List (String × ModelMetrics)) "m" true 0)
        "m" true 0 ∧
      ((stf.metrics.lookup "m").getD emptyMetrics).total_attempts =
        ((([] : List (String × ModelMetrics)).lookup "m").getD
          emptyMetrics).total_attempts + 2 ∧
      ((stf.metrics.lookup "m").getD emptyMetrics).successful_attempts =
        ((([] : List (String × ModelMetrics)).lookup "m").getD
          emptyMetrics).successful_attempts + 2 :=
  ⟨rfl, by decide,
   execute_success_double_counts (fun _ _ => AttemptOutcome.success "ok") 2
     [("text", ["m"])] "text" ⟨[], []⟩ "m" "ok" [] rfl (by decide) rfl⟩

/-! ### Keyword/free-text router (`ai_task_router_temp.py` lines 29-50) -/

/-- A task entry of the YAML configuration: the parts the keyword router and
the executor read (its routing keywords and its model chain). -/
structure TaskConfig where
  routing_keywords : List String := []
  models : List String := []
deriving DecidableEq, Repr

/-- The router configuration: the `tasks` mapping in declaration order, and
the optional top-level `default_task` name. -/
structure RouterConfig where
  tasks : List (String × TaskConfig)
  default_task : Option String := none
deriving DecidableEq, Repr

/-- Python `str.lower()` (character-wise lowering; `String.toLower` itself
is position-based and kept out of kernel reduction paths). -/
def strToLower (s : String) : String := ⟨s.data.map Char.toLower⟩

/-- Bool-valued contiguous-infix test on character lists. -/
def listIsInfixOf (needle : List Char) : List Char → Bool
  | [] => needle.isEmpty
  | c :: rest => needle.isPrefixOf (c :: rest) || listIsInfixOf needle rest

/-- Python `needle in haystack` on strings: contiguous-substring test. -/
def strContains (haystack needle : String) : Bool :=
  listIsInfixOf needle.data haystack.data

/-- The inner keyword loop (lines 42-45): a task is selected iff any of its
`routing_keywords`, lowercased, is a substring of the lowercased prompt;
keywords are scanned in list order, which affects only which keyword hits
first, not the returned config. -/
def taskMatches (prompt_lower : String) (tc : TaskConfig) : Bool :=
  tc.routing_keywords.any fun kw => strContains prompt_lower (strToLower kw)

/-- `AITaskRouter.route_task` from `ai_task_router_temp.py` lines 29-50:
lowercase the prompt, scan tasks in declaration order, return the first
matching task's config; otherwise return
`self.config['tasks'].get(default_task_name, {})` where the name is
`self.config.get('default_task', 'general_chat')` — silently an empty dict
when even the default task is undefined. -/
def route_task_kw (cfg : RouterConfig) (prompt : String) : TaskConfig :=
  let prompt_lower := strToLower prompt
  match cfg.tasks.find? (fun p => taskMatches prompt_lower p.2) with
  | some p => p.2
  | none =>
      let default_task_name := cfg.default_task.getD "general_chat"
      (cfg.tasks.lookup default_task_name).getD {}

/-! ### Claim theorems for the keyword router -/

/-- `find?` over `pre ++ x :: post` returns `x` when nothing in `pre`
satisfies the predicate and `x` does. -/
theorem find_first_after_prefix {α : Type} (p : α → Bool) :
    ∀ (pre : List α) (x : α) (post : List α),
      (∀ y ∈ pre, p y = false) → p x →
      (pre ++ x :: post).find? p = some x := by
  intro pre
  induction pre with
  | nil => intro x post _ hx; exact List.find?_cons_of_pos _ hx
  | cons q pres ih =>
      intro x post hpre hx
      rw [List.cons_append,
        List.find?_cons_of_neg _ (by simp [hpre q (List.mem_cons_self _ _)])]
      exact ih x post (fun y hy => hpre y (List.mem_cons_of_mem _ hy)) hx

/-- C5: keyword routing is order-deterministic: when the tasks list splits
as `pre ++ (name, tc) :: post` with no task of `pre` matching and `tc`
matching, `route_task_kw` returns `tc` — whatever the tasks of `post` are,
so a later task can never win over an earlier matching one, regardless of
match length or position. -/
theorem route_task_kw_first_match (cfg : RouterConfig) (prompt : String)
    (pre post : List (String × TaskConfig)) (name : String) (tc : TaskConfig)
    (hsplit : cfg.tasks = pre ++ (name, tc) :: post)
    (hpre : ∀ p ∈ pre, taskMatches (strToLower prompt) p.2 = false)
    (hmatch : taskMatches (strToLower prompt) tc) :
    route_task_kw cfg prompt = tc := by
  have hfind : (pre ++ (name, tc) :: post).find?
      (fun p => taskMatches (strToLower prompt) p.2) = some (name, tc) :=
    find_first_after_prefix (fun q => taskMatches (strToLower prompt) q.2)
      pre (name, tc) post hpre hmatch
  simp only [route_task_kw, hsplit, hfind]

/-- Witness for C5: two tasks whose keyword lists both match the prompt; the
earlier-declared task wins even though the later task's matching keyword is
longer. -/
theorem route_task_kw_first_match_witness :
    (⟨[("code_help", ⟨["code"], ["m1"]⟩),
       ("chat", ⟨["code review please"], ["m2"]⟩)], some "chat"⟩ :
        RouterConfig).tasks =
      [] ++ ("code_help", (⟨["code"], ["m1"]⟩ : TaskConfig)) ::
        [("chat", ⟨["code review please"], ["m2"]⟩)] ∧
    taskMatches (strToLower "Code review please") ⟨["code review please"], ["m2"]⟩ = true ∧
    taskMatches (strToLower "Code review please") ⟨["code"], ["m1"]⟩ = true ∧
    route_task_kw
      ⟨[("code_help", ⟨["code"], ["m1"]⟩),
        ("chat", ⟨["code review please"], ["m2"]⟩)], some "chat"⟩
      "Code review please" = ⟨["code"], ["m1"]⟩ :=
  ⟨rfl, rfl, rfl,
   route_task_kw_first_match
     ⟨[("code_help", ⟨["code"], ["m1"]⟩),
       ("chat", ⟨["code review please"], ["m2"]⟩)], some "chat"⟩
     "Code review please" [] [("chat", ⟨["code review please"], ["m2"]⟩)]
     "code_help" ⟨["code"], ["m1"]⟩ rfl (by intro p hp; cases hp) rfl⟩

/-- C6 (amended): when no task's keywords match, `route_task_kw` returns the
configured default task's config when that task is defined. -/
theorem route_task_kw_default (cfg : RouterConfig) (prompt : String)
    (tc : TaskConfig)
    (hnomatch : ∀ p ∈ cfg.tasks, taskMatches (strToLower prompt) p.2 = false)
    (hdef : cfg.tasks.lookup (cfg.default_task.getD "general_chat") = some tc) :
    route_task_kw cfg prompt = tc := by
  have hfindnone : cfg.tasks.find? (fun p => taskMatches (strToLower prompt) p.2) = none :=
    List.find?_eq_none.mpr (by intro p hp; simp [hnomatch p hp])
  simp only [route_task_kw, hfindnone, hdef, Option.getD_some]

/-- Witness for the amended C6: no keyword matches and the default task is
defined. -/
theorem route_task_kw_default_witness :
    (∀ p ∈ (⟨[("a", ⟨["xyz"], ["m1"]⟩), ("general_chat", ⟨[], ["m2"]⟩)], none⟩ :
        RouterConfig).tasks, taskMatches (strToLower "hello") p.2 = false) ∧
    route_task_kw
      ⟨[("a", ⟨["xyz"], ["m1"]⟩), ("general_chat", ⟨[], ["m2"]⟩)], none⟩
      "hello" = ⟨[], ["m2"]⟩ :=
  ⟨by decide,
   route_task_kw_default
     ⟨[("a", ⟨["xyz"], ["m1"]⟩), ("general_chat", ⟨[], ["m2"]⟩)], none⟩
     "hello" ⟨[], ["m2"]⟩ (by decide) rfl⟩

/-- Counterexample to C6 as stated: with no matching keywords and an
undefined default task, `route_task_kw` does not fail with a configuration
error — `self.config['tasks'].get(default_task_name, {})` on line 50
silently returns the empty config (empty keyword list and empty model
chain). -/
theorem route_task_kw_missing_default_counterexample :
    route_task_kw (⟨[("a", ⟨["xyz"], ["m1"]⟩)], some "missing"⟩ : RouterConfig)
        "hello" = ({} : TaskConfig) ∧
    ({} : TaskConfig).models = [] :=
  ⟨rfl, rfl⟩

/-! ### Provider dispatch and `execute_task`
(`fallback_ai_manager.py` lines 76-129 and 131-337) -/

/-- The provider adapters `_get_model_client` can resolve (lines 131-145). -/
inductive Provider where
  | ollama
  | openai
  | anthropic
  | deepseek
deriving DecidableEq, Repr

/-- `FallbackAIManager._get_model_client` (lines 131-145): dispatch on the
model-name provider prefix; `None` when the prefix is unrecognized. -/
def get_model_client (model_name : String) : Option Provider :=
  if ("ollama/").data.isPrefixOf model_name.data then some .ollama
  else if ("openai/").data.isPrefixOf model_name.data then some .openai
  else if ("anthropic/").data.isPrefixOf model_name.data then some .anthropic
  else if ("deepseek/").data.isPrefixOf model_name.data then some .deepseek
  else none

/-- The configuration values the adapters read (from `utils/config.py`).
`none` and the empty string both count as missing, matching the Python
truthiness test `if not api_key`. -/
structure ProviderConfig where
  OLLAMA_URL : Option String := none
  OPENAI_API_KEY : Option String := none
  ANTHROPIC_API_KEY : Option String := none
  DEEPSEEK_API_KEY : Option String := none
deriving DecidableEq, Repr

/-- Result of one provider call: a normalized text response, or the message
of the exception it raised. -/
inductive CallOutcome where
  | ok (response : String)
  | err (error : String)
deriving DecidableEq, Repr

/-- `_call_ollama` (lines 147-165): no credential check (the URL has a
default); the HTTP call is an oracle indexed by model name and attempt. -/
def call_ollama (_cfg : ProviderConfig) (net : String → Nat → CallOutcome)
    (model_name : String) (attempt : Nat) : CallOutcome :=
  net model_name attempt

/-- `_call_openai` (lines 167-186 / 271-290): raises
`ValueError("OPENAI_API_KEY is not configured.")` before any network request
when the key is missing or empty. -/
def call_openai (cfg : ProviderConfig) (net : String → Nat → CallOutcome)
    (model_name : String) (attempt : Nat) : CallOutcome :=
  if cfg.OPENAI_API_KEY.getD "" = "" then
    .err "OPENAI_API_KEY is not configured."
  else net model_name attempt

/-- `_call_anthropic` (lines 188-212): same shape with its own key. -/
def call_anthropic (cfg : ProviderConfig) (net : String → Nat → CallOutcome)
    (model_name : String) (attempt : Nat) : CallOutcome :=
  if cfg.ANTHROPIC_API_KEY.getD "" = "" then
    .err "ANTHROPIC_API_KEY is not configured."
  else net model_name attempt

/-- `_call_deepseek` (lines 214-233): same shape with its own key. -/
def call_deepseek (cfg : ProviderConfig) (net : String → Nat → CallOutcome)
    (model_name : String) (attempt : Nat) : CallOutcome :=
  if cfg.DEEPSEEK_API_KEY.getD "" = "" then
    .err "DEEPSEEK_API_KEY is not configured."
  else net model_name attempt

/-- The call function returned by `_get_model_client` for each provider. -/
def provider_call (p : Provider) (cfg : ProviderConfig)
    (net : String → Nat → CallOutcome) (model_name : String) (attempt : Nat) :
    CallOutcome :=
  match p with
  | .ollama => call_ollama cfg net model_name attempt
  | .openai => call_openai cfg net model_name attempt
  | .anthropic => call_anthropic cfg net model_name attempt
  | .deepseek => call_deepseek cfg net model_name attempt

/-- One logged attempt of `execute_task`: the model, the zero-based attempt
index within that model's retry budget, and the error if the attempt failed
(mirroring the `logger.info`/`logger.warning` calls on lines 109-121). -/
structure TaskAttemptTrace where
  model_name : String
  attempt : Nat
  error : Option String
deriving DecidableEq, Repr

/-- The retry loop of `execute_task`
(`for attempt in range(self.max_retries):`, lines 106-123): each failure
records `last_error` and retries; a success returns the response at once. -/
def executeRetries (call : Nat → CallOutcome) (model_name : String) :
    List Nat → Option String → List TaskAttemptTrace →
    Option String × Option String × List TaskAttemptTrace
  | [], last_error, trace => (none, last_error, trace)
  | attempt :: rest, last_error, trace =>
      match call attempt with
      | .ok resp => (some resp, last_error, trace ++ [⟨model_name, attempt, none⟩])
      | .err e =>
          executeRetries call model_name rest (some e)
            (trace ++ [⟨model_name, attempt, some e⟩])

/-- The model loop of `execute_task` (lines 100-125): models whose provider
prefix is unrecognized are skipped without consuming any retry budget;
otherwise the model's full retry budget runs before falling back. -/
def executeChain (cfg : ProviderConfig) (net : String → Nat → CallOutcome)
    (max_retries : Nat) :
    List String → Option String → List TaskAttemptTrace →
    Option String × Option String × List TaskAttemptTrace
  | [], last_error, trace => (none, last_error, trace)
  | model_name :: rest, last_error, trace =>
      match get_model_client model_name with
      | none => executeChain cfg net max_retries rest last_error trace
      | some p =>
          match executeRetries (provider_call p cfg net model_name) model_name
              (List.range max_retries) last_error trace with
          | (some resp, le2, tr2) => (some resp, le2, tr2)
          | (none, le2, tr2) => executeChain cfg net max_retries rest le2 tr2

/-- `FallbackAIManager.execute_task` (lines 76-129), returning the response
or error message together with the attempt trace.  The Python f-string
quotes around the task name are omitted. -/
def execute_task (tasks_config : List (String × TaskConfig)) (max_retries : Nat)
    (cfg : ProviderConfig) (net : String → Nat → CallOutcome)
    (task_name : String) : String × List TaskAttemptTrace :=
  match tasks_config.lookup task_name with
  | none => ("Error: Task " ++ task_name ++ " is not configured.", [])
  | some tc =>
      if tc.models.isEmpty then
        ("Error: No models configured for task " ++ task_name ++ ".", [])
      else
        match executeChain cfg net max_retries tc.models none [] with
        | (some resp, _, trace) => (resp, trace)
        | (none, last_error, trace) =>
            ("Task " ++ task_name ++
              " failed. All models in the chain failed. Last error: " ++
              last_error.getD "None", trace)

/-! ### Claim theorems for credential handling (C4) -/

/-- When every attempt errs with the same message, the retry loop fails
through its whole budget, appending one trace entry per attempt. -/
theorem executeRetries_all_err (call : Nat → CallOutcome) (name e : String)
    (hcall : ∀ a, call a = .err e) :
    ∀ (l : List Nat) (le : Option String) (tr : List TaskAttemptTrace),
      executeRetries call name l le tr =
        (none, (if l.isEmpty then le else some e),
         tr ++ l.map (fun a => ⟨name, a, some e⟩)) := by
  intro l
  induction l with
  | nil => intro le tr; simp [executeRetries]
  | cons a rest ih =>
      intro le tr
      simp only [executeRetries, hcall a]
      rw [ih]
      cases rest <;> simp

/-- Counterexample to C4 as stated: with no OpenAI key configured and
`max_retries = 2`, the missing-credential `ValueError` is retried — the
trace shows the configuration error consuming both attempts of the retry
budget for that model, not a single immediate terminal failure, because
`execute_task` catches every exception in its retry loop (lines 115-123). -/
theorem missing_key_retried_counterexample :
    execute_task [("t", ⟨[], ["openai/gpt-4"]⟩)] 2 ⟨none, none, none, none⟩
        (fun _ _ => CallOutcome.ok "never reached") "t" =
      ("Task t failed. All models in the chain failed. Last error: " ++
         "OPENAI_API_KEY is not configured.",
       [⟨"openai/gpt-4", 0, some "OPENAI_API_KEY is not configured."⟩,
        ⟨"openai/gpt-4", 1, some "OPENAI_API_KEY is not configured."⟩]) ∧
    ([⟨"openai/gpt-4", 0, some "OPENAI_API_KEY is not configured."⟩,
      ⟨"openai/gpt-4", 1, some "OPENAI_API_KEY is not configured."⟩] :
        List TaskAttemptTrace).length ≠ 1 :=
  ⟨rfl, by decide⟩

/-- C4 (amended): a provider call with a missing API key does fail
immediately with the configuration error and without touching the network
(the theorem holds for every network oracle), but the executor retries it
like any other failure: the configuration error consumes the model's entire
retry budget — one trace entry per attempt, all carrying the configuration
error — before the task fails terminally with that error as the last
error. -/
theorem missing_key_consumes_retry_budget (max_retries : Nat)
    (net : String → Nat → CallOutcome) (cfg : ProviderConfig)
    (tasks_config : List (String × TaskConfig)) (task_name mname : String)
    (tc : TaskConfig)
    (hlookup : tasks_config.lookup task_name = some tc)
    (hmodels : tc.models = [mname])
    (hclient : get_model_client mname = some Provider.openai)
    (hnokey : cfg.OPENAI_API_KEY.getD "" = "")
    (hpos : 0 < max_retries) :
    execute_task tasks_config max_retries cfg net task_name =
      ("Task " ++ task_name ++
         " failed. All models in the chain failed. Last error: " ++
         "OPENAI_API_KEY is not configured.",
       (List.range max_retries).map
         (fun a => ⟨mname, a, some "OPENAI_API_KEY is not configured."⟩)) := by
  have hcall : ∀ a, provider_call Provider.openai cfg net mname a =
      .err "OPENAI_API_KEY is not configured." := by
    intro a
    simp [provider_call, call_openai, hnokey]
  cases max_retries with
  | zero => exact absurd hpos (by simp)
  | succ k =>
      have hstep : executeChain cfg net (k + 1) [mname] none [] =
          match executeRetries (provider_call Provider.openai cfg net mname) mname
              (List.range (k + 1)) none [] with
          | (some resp, le2, tr2) => (some resp, le2, tr2)
          | (none, le2, tr2) => executeChain cfg net (k + 1) [] le2 tr2 := by
        unfold executeChain
        rw [hclient]
        rfl
      unfold execute_task
      rw [hlookup]
      simp only [hmodels]
      rw [show (([mname] : List String)).isEmpty = false from rfl]
      simp only [Bool.false_eq_true, if_false]
      rw [hstep, executeRetries_all_err _ _ _ hcall]
      simp [executeChain]

/-- Witness for the amended C4 at a concrete configuration. -/
theorem missing_key_consumes_retry_budget_witness :
    ([("t", (⟨[], ["openai/gpt-4"]⟩ : TaskConfig))].lookup "t" =
      some (⟨[], ["openai/gpt-4"]⟩ : TaskConfig)) ∧
    get_model_client "openai/gpt-4" = some Provider.openai ∧
    execute_task [("t", ⟨[], ["openai/gpt-4"]⟩)] 3 ⟨none, some "", none, none⟩
        (fun _ _ => CallOutcome.ok "never reached") "t" =
      ("Task t failed. All models in the chain failed. Last error: " ++
         "OPENAI_API_KEY is not configured.",
       (List.range 3).map
         (fun a => ⟨"openai/gpt-4", a, some "OPENAI_API_KEY is not configured."⟩)) :=
  ⟨rfl, rfl,
   missing_key_consumes_retry_budget 3
     (fun _ _ => CallOutcome.ok "never reached") ⟨none, some "", none, none⟩
     [("t", ⟨[], ["openai/gpt-4"]⟩)] "t" "openai/gpt-4" ⟨[], ["openai/gpt-4"]⟩
     rfl rfl rfl rfl (by decide)⟩

end Jarvis
